import Mathlib

/-!
Verification of `sample_apps/multi_agent/app.py`, a single-page Streamlit UI.

The file is a thin controller: it keeps a session-scoped dictionary with the
keys `"messages"` (the chat transcript) and `"chat"` (a lazily created opaque
handle), renders the transcript, accepts one image upload, and on the
"Analyze and Find Products" click runs two awaited collaborator calls
(`initialize_chat`, `process_image_and_get_responses`) on a freshly created
asyncio event loop that is closed in a `finally` block; the "Start Over"
click clears the whole session dictionary and triggers a rerun.

The embedding below models one render cycle of `main()` as a pure function
from the previous session dictionary and the cycle's user input to the new
dictionary, the list of displayed items, and a trace of the events of the
analyze action (spinner enter/exit, event-loop create/close, collaborator
call start/completion).  The two collaborator coroutines live in
`kernel_setup.py`, which is not part of the sources; following the stated
contract they are taken as parameters: `initialize_chat` either yields a
chat handle or raises, and `process_image_and_get_responses` either yields
the updated transcript (its observable side effect on `"messages"`) or
raises leaving the transcript unchanged.  Raising is modelled with `Except`.
The opaque chat handle is a type parameter `Chat`.
-/

/-- Errors raised by the collaborator calls; their kind is unspecified, so a
plain message string stands for them. -/
abbrev Err := String

/-- One transcript entry, a dict with keys `role`, `content` and optionally
`image_path` (`none` models the key being absent). -/
structure Message where
  role : String
  content : String
  image_path : Option String
  deriving DecidableEq, Repr

/-- The session dictionary `st.session_state` restricted to the two keys the
app uses; `none` in a field models the key being absent from the dict
(as after `st.session_state.clear()`, line 60). -/
structure SessionDict (Chat : Type) where
  messages : Option (List Message)
  chat : Option (Option Chat)
  deriving DecidableEq, Repr

/-- Lines 17-20: `if "messages" not in st.session_state: ... = []` and
`if "chat" not in st.session_state: ... = None`.  Absent keys are given
their initial values; present keys are kept. -/
def initSessionState {Chat : Type} (st : SessionDict Chat) : SessionDict Chat :=
  { messages := some (st.messages.getD []), chat := some (st.chat.getD none) }

/-- Items the page shows: the per-message chat text (line 25), the
per-message image (line 27), and the preview of the uploaded file (line 34). -/
inductive DisplayItem where
  | chatText (role : String) (content : String)
  | chatImage (role : String) (path : String)
  | uploadedPreview (name : String)
  deriving DecidableEq, Repr

/-- Lines 24-27: inside `st.chat_message(message["role"])`, write the content
and, when `"image_path" in message and message["image_path"]` (key present
and truthy, i.e. a non-empty string), show the image. -/
def renderMessage (m : Message) : List DisplayItem :=
  DisplayItem.chatText m.role m.content ::
    (match m.image_path with
     | some p => if p = "" then [] else [DisplayItem.chatImage m.role p]
     | none => [])

/-- Line 23: `for message in st.session_state["messages"]:` — every message,
in insertion order. -/
def renderTranscript : List Message → List DisplayItem
  | [] => []
  | m :: ms => renderMessage m ++ renderTranscript ms

/-- A file the user offers to the upload widget: its name (carrying the
extension) and its raw bytes (`getvalue()`, line 40). -/
structure UploadFile where
  name : String
  bytes : List Nat
  deriving DecidableEq, Repr

/-- Line 30: the extension filter passed to the upload widget,
`type=["jpg", "jpeg", "png"]`. -/
def uploadTypes : List String := ["jpg", "jpeg", "png"]

/-- The characters of a file name that follow its last dot (the whole name
when it has no dot); `acc` accumulates the current segment. -/
def extAfterDot : List Char → List Char → List Char
  | [], acc => acc
  | c :: cs, acc => if c = '.' then extAfterDot cs [] else extAfterDot cs (acc ++ [c])

/-- The extension of a file name: the part after the last dot, lowered,
since the widget's extension matching is case-insensitive. -/
def fileExtension (name : String) : String :=
  String.mk ((extAfterDot name.data []).map Char.toLower)

/-- Modelled from the spec: the upload widget itself (`st.file_uploader`,
line 30) belongs to the rendering substrate, which is not in the sources.
Per the spec it "accepts at most one image file per render cycle,
constrained to types {jpg, jpeg, png}": with `accept_multiple_files` left at
its default it returns at most one file, and only one whose extension is in
the allowed list; otherwise it returns nothing. -/
def file_uploader (allowed : List String) (candidate : Option UploadFile) :
    Option UploadFile :=
  candidate.bind fun f => if fileExtension f.name ∈ allowed then some f else none

/-- The observable events of one analyze action, in the order they happen:
the spinner context (line 38), the event-loop lifecycle (lines 43 and 56,
loops being named by a freshness counter), and the start and completion of
each awaited collaborator call (lines 48 and 51-54).  `procStart` records
the chat argument exactly as read from the session dict, so a hypothetical
`None` argument would be visible. -/
inductive Ev (Chat : Type) where
  | spinnerEnter
  | spinnerExit
  | loopCreate (id : Nat)
  | loopClose (id : Nat)
  | initStart
  | initOk (c : Chat)
  | initErr (e : Err)
  | procStart (chatArg : Option Chat) (imageBytes : List Nat)
  | procOk
  | procErr (e : Err)
  deriving DecidableEq, Repr

/-- Outcome of one analyze action: its event trace, the values left in the
two session keys, and whether an error propagated out of it. -/
structure AnalyzeOut (Chat : Type) where
  trace : List (Ev Chat)
  messages : List Message
  chat : Option Chat
  result : Except Err Unit
  deriving Repr

/-- Lines 38-56, the body of the "Analyze and Find Products" click:

```
with st.spinner("Processing image..."):
    image_bytes = uploaded_file.getvalue()
    loop = asyncio.new_event_loop()
    asyncio.set_event_loop(loop)
    try:
        if st.session_state["chat"] is None:
            st.session_state["chat"] = loop.run_until_complete(initialize_chat())
        loop.run_until_complete(process_image_and_get_responses(
            st.session_state["chat"], image_bytes))
    finally:
        loop.close()
```

A fresh loop (`loopId`) is created inside the spinner scope; `finally`
closes it on every path; the spinner context exits on every path; an
uncaught error then propagates (`result = .error e`).  When
`initialize_chat` fails, the assignment to `st.session_state["chat"]` never
happens; when it succeeds, the handle is stored before
`process_image_and_get_responses` runs, so it stays stored even when the
latter fails. -/
def analyzeAction {Chat : Type} (initialize_chat : Except Err Chat)
    (process_image_and_get_responses :
      Chat → List Nat → List Message → Except Err (List Message))
    (imageBytes : List Nat) (loopId : Nat)
    (messages : List Message) (chat : Option Chat) : AnalyzeOut Chat :=
  match chat with
  | some c =>
    match process_image_and_get_responses c imageBytes messages with
    | .ok ms =>
        ⟨[.spinnerEnter, .loopCreate loopId, .procStart (some c) imageBytes,
          .procOk, .loopClose loopId, .spinnerExit], ms, some c, .ok ()⟩
    | .error e =>
        ⟨[.spinnerEnter, .loopCreate loopId, .procStart (some c) imageBytes,
          .procErr e, .loopClose loopId, .spinnerExit], messages, some c, .error e⟩
  | none =>
    match initialize_chat with
    | .error e =>
        ⟨[.spinnerEnter, .loopCreate loopId, .initStart, .initErr e,
          .loopClose loopId, .spinnerExit], messages, none, .error e⟩
    | .ok c =>
      match process_image_and_get_responses c imageBytes messages with
      | .ok ms =>
          ⟨[.spinnerEnter, .loopCreate loopId, .initStart, .initOk c,
            .procStart (some c) imageBytes, .procOk, .loopClose loopId,
            .spinnerExit], ms, some c, .ok ()⟩
      | .error e =>
          ⟨[.spinnerEnter, .loopCreate loopId, .initStart, .initOk c,
            .procStart (some c) imageBytes, .procErr e, .loopClose loopId,
            .spinnerExit], messages, some c, .error e⟩

/-- The input of one render cycle: the file the user offers to the upload
widget (if any) and the two button states. -/
structure RenderInput where
  candidate : Option UploadFile
  analyzeClicked : Bool
  resetClicked : Bool

/-- Outcome of one render cycle of `main()`: what was displayed, the new
session dictionary, the analyze-action trace (empty when no analyze action
ran), the propagating error if any, whether `st.rerun()` was requested, and
the next fresh loop id. -/
structure CycleOut (Chat : Type) where
  displayed : List DisplayItem
  state : SessionDict Chat
  trace : List (Ev Chat)
  result : Except Err Unit
  rerunRequested : Bool
  nextLoopId : Nat
  deriving Repr

/-- Lines 59-61, reached only when no exception aborted the script earlier:
`if st.button("Start Over"): st.session_state.clear(); st.rerun()`.
Clearing removes every key of the session dictionary. -/
def finishCycle {Chat : Type} (disp : List DisplayItem) (ms : List Message)
    (ch : Option Chat) (tr : List (Ev Chat)) (nid : Nat)
    (resetClicked : Bool) : CycleOut Chat :=
  if resetClicked then ⟨disp, ⟨none, none⟩, tr, .ok (), true, nid⟩
  else ⟨disp, ⟨some ms, some ch⟩, tr, .ok (), false, nid⟩

/-- One render cycle of `main()` (lines 10-61): initialize absent session
keys, render the transcript, run the upload widget; when it returns a file,
preview it and — if "Analyze and Find Products" was clicked — run the
analyze action.  An error propagating from the analyze action aborts the
script, so the "Start Over" button is then never reached; otherwise the
reset click, when present, clears the session dictionary and requests a
rerun. -/
def mainCycle {Chat : Type} (initialize_chat : Except Err Chat)
    (process_image_and_get_responses :
      Chat → List Nat → List Message → Except Err (List Message))
    (loopId : Nat) (inp : RenderInput) (st0 : SessionDict Chat) : CycleOut Chat :=
  let st1 := initSessionState st0
  let msgs := st1.messages.getD []
  let chat0 := st1.chat.getD none
  let transcript := renderTranscript msgs
  match file_uploader uploadTypes inp.candidate with
  | none => finishCycle transcript msgs chat0 [] loopId inp.resetClicked
  | some f =>
    let disp := transcript ++ [DisplayItem.uploadedPreview f.name]
    if inp.analyzeClicked then
      let a := analyzeAction initialize_chat process_image_and_get_responses
        f.bytes loopId msgs chat0
      match a.result with
      | .error e =>
          ⟨disp, ⟨some a.messages, some a.chat⟩, a.trace, .error e, false,
           loopId + 1⟩
      | .ok _ =>
          finishCycle disp a.messages a.chat a.trace (loopId + 1)
            inp.resetClicked
    else finishCycle disp msgs chat0 [] loopId inp.resetClicked

/-- How many times `initialize_chat` was invoked in a trace. -/
def countInitCalls {Chat : Type} : List (Ev Chat) → Nat
  | [] => 0
  | Ev.initStart :: tr => countInitCalls tr + 1
  | _ :: tr => countInitCalls tr

/-- The ids of the event loops created in a trace, in order. -/
def loopCreates {Chat : Type} : List (Ev Chat) → List Nat
  | [] => []
  | Ev.loopCreate i :: tr => i :: loopCreates tr
  | _ :: tr => loopCreates tr

/-- The ids of the event loops closed in a trace, in order. -/
def loopCloses {Chat : Type} : List (Ev Chat) → List Nat
  | [] => []
  | Ev.loopClose i :: tr => i :: loopCloses tr
  | _ :: tr => loopCloses tr

/-- Events of the two collaborator calls (starts and completions). -/
def collabEvent {Chat : Type} : Ev Chat → Bool
  | .initStart => true
  | .initOk _ => true
  | .initErr _ => true
  | .procStart _ _ => true
  | .procOk => true
  | .procErr _ => true
  | _ => false

/-- The part of a trace after the first `spinnerExit` (empty when the
spinner was never exited). -/
def afterSpinnerExit {Chat : Type} : List (Ev Chat) → List (Ev Chat)
  | [] => []
  | Ev.spinnerExit :: tr => tr
  | _ :: tr => afterSpinnerExit tr

/-- `true` when no `procStart` happens strictly before the first successful
completion of `initialize_chat` in the trace. -/
def noProcBeforeInitOk {Chat : Type} : List (Ev Chat) → Bool
  | [] => true
  | Ev.initOk _ :: _ => true
  | Ev.procStart _ _ :: _ => false
  | _ :: tr => noProcBeforeInitOk tr

/-- `true` when every `procStart` of the trace carries a non-`None` chat
argument. -/
def procArgsSome {Chat : Type} (tr : List (Ev Chat)) : Bool :=
  tr.all fun e =>
    match e with
    | .procStart arg _ => arg.isSome
    | _ => true

/-- `true` exactly on the uploaded-file preview item. -/
def isPreview : DisplayItem → Bool
  | .uploadedPreview _ => true
  | _ => false

/-- A sample successful `initialize_chat` outcome over `Chat := Nat`,
used to evaluate the theorems at concrete inputs. -/
def sampleInit : Except Err Nat := Except.ok 7

/-- A sample failing `initialize_chat` outcome. -/
def sampleInitFail : Except Err Nat := Except.error "init failed"

/-- A sample successful `process_image_and_get_responses` behaviour: it
appends one assistant message to the transcript. -/
def sampleProc : Nat → List Nat → List Message → Except Err (List Message) :=
  fun _ _ ms => Except.ok (ms ++ [⟨"assistant", "Found 3 matching items", none⟩])

/-- A sample failing `process_image_and_get_responses` behaviour. -/
def sampleProcFail : Nat → List Nat → List Message → Except Err (List Message) :=
  fun _ _ _ => Except.error "proc failed"

/-- A sample uploaded png file. -/
def samplePng : UploadFile := ⟨"photo.png", [1, 2, 3]⟩

/-- A sample file whose extension the widget does not accept. -/
def sampleGif : UploadFile := ⟨"photo.gif", [4, 5]⟩

theorem renderMessage_no_preview (m : Message) :
    (renderMessage m).countP isPreview = 0 := by
  cases h : m.image_path with
  | none => simp [renderMessage, h, isPreview]
  | some p =>
    by_cases hp : p = "" <;>
      simp [renderMessage, h, hp, isPreview]

theorem renderTranscript_no_preview (ms : List Message) :
    (renderTranscript ms).countP isPreview = 0 := by
  induction ms with
  | nil => rfl
  | cons m ms ih =>
    simp [renderTranscript, List.countP_append, ih, renderMessage_no_preview]

theorem renderTranscript_append (ms ms2 : List Message) :
    renderTranscript (ms ++ ms2) = renderTranscript ms ++ renderTranscript ms2 := by
  induction ms with
  | nil => rfl
  | cons m ms ih => simp [renderTranscript, ih]

theorem finishCycle_trace {Chat : Type} (disp : List DisplayItem)
    (ms : List Message) (ch : Option Chat) (tr : List (Ev Chat)) (nid : Nat)
    (r : Bool) : (finishCycle disp ms ch tr nid r).trace = tr := by
  unfold finishCycle; split <;> rfl

theorem finishCycle_nextLoopId {Chat : Type} (disp : List DisplayItem)
    (ms : List Message) (ch : Option Chat) (tr : List (Ev Chat)) (nid : Nat)
    (r : Bool) : (finishCycle disp ms ch tr nid r).nextLoopId = nid := by
  unfold finishCycle; split <;> rfl

theorem finishCycle_result {Chat : Type} (disp : List DisplayItem)
    (ms : List Message) (ch : Option Chat) (tr : List (Ev Chat)) (nid : Nat)
    (r : Bool) : (finishCycle disp ms ch tr nid r).result = Except.ok () := by
  unfold finishCycle; split <;> rfl

theorem finishCycle_displayed {Chat : Type} (disp : List DisplayItem)
    (ms : List Message) (ch : Option Chat) (tr : List (Ev Chat)) (nid : Nat)
    (r : Bool) : (finishCycle disp ms ch tr nid r).displayed = disp := by
  unfold finishCycle; split <;> rfl

theorem analyzeAction_loopCreates {Chat : Type} (ic : Except Err Chat)
    (pr : Chat → List Nat → List Message → Except Err (List Message))
    (b : List Nat) (l : Nat) (ms : List Message) (ch : Option Chat) :
    loopCreates (analyzeAction ic pr b l ms ch).trace = [l] := by
  cases ch with
  | some c => cases hp : pr c b ms <;> simp [analyzeAction, hp, loopCreates]
  | none =>
    cases hi : ic with
    | error e => simp [analyzeAction, hi, loopCreates]
    | ok c => cases hp : pr c b ms <;> simp [analyzeAction, hi, hp, loopCreates]

theorem analyzeAction_loopCloses {Chat : Type} (ic : Except Err Chat)
    (pr : Chat → List Nat → List Message → Except Err (List Message))
    (b : List Nat) (l : Nat) (ms : List Message) (ch : Option Chat) :
    loopCloses (analyzeAction ic pr b l ms ch).trace = [l] := by
  cases ch with
  | some c => cases hp : pr c b ms <;> simp [analyzeAction, hp, loopCloses]
  | none =>
    cases hi : ic with
    | error e => simp [analyzeAction, hi, loopCloses]
    | ok c => cases hp : pr c b ms <;> simp [analyzeAction, hi, hp, loopCloses]

theorem analyzeAction_countInit {Chat : Type} (ic : Except Err Chat)
    (pr : Chat → List Nat → List Message → Except Err (List Message))
    (b : List Nat) (l : Nat) (ms : List Message) (ch : Option Chat) :
    countInitCalls (analyzeAction ic pr b l ms ch).trace
      = if ch.isSome then 0 else 1 := by
  cases ch with
  | some c => cases hp : pr c b ms <;> simp [analyzeAction, hp, countInitCalls]
  | none =>
    cases hi : ic with
    | error e => simp [analyzeAction, hi, countInitCalls]
    | ok c => cases hp : pr c b ms <;> simp [analyzeAction, hi, hp, countInitCalls]

theorem analyzeAction_spinner {Chat : Type} (ic : Except Err Chat)
    (pr : Chat → List Nat → List Message → Except Err (List Message))
    (b : List Nat) (l : Nat) (ms : List Message) (ch : Option Chat) :
    (analyzeAction ic pr b l ms ch).trace.getLast? = some Ev.spinnerExit
    ∧ Ev.spinnerEnter ∈ (analyzeAction ic pr b l ms ch).trace
    ∧ afterSpinnerExit (analyzeAction ic pr b l ms ch).trace = [] := by
  cases ch with
  | some c =>
    cases hp : pr c b ms <;>
      simp [analyzeAction, hp, afterSpinnerExit, List.getLast?]
  | none =>
    cases hi : ic with
    | error e => simp [analyzeAction, hi, afterSpinnerExit, List.getLast?]
    | ok c =>
      cases hp : pr c b ms <;>
        simp [analyzeAction, hi, hp, afterSpinnerExit, List.getLast?]

theorem analyzeAction_procArgsSome {Chat : Type} (ic : Except Err Chat)
    (pr : Chat → List Nat → List Message → Except Err (List Message))
    (b : List Nat) (l : Nat) (ms : List Message) (ch : Option Chat) :
    procArgsSome (analyzeAction ic pr b l ms ch).trace = true := by
  cases ch with
  | some c => cases hp : pr c b ms <;> simp [analyzeAction, hp, procArgsSome, collabEvent]
  | none =>
    cases hi : ic with
    | error e => simp [analyzeAction, hi, procArgsSome]
    | ok c => cases hp : pr c b ms <;> simp [analyzeAction, hi, hp, procArgsSome]

theorem analyzeAction_noProcBeforeInitOk {Chat : Type} (ic : Except Err Chat)
    (pr : Chat → List Nat → List Message → Except Err (List Message))
    (b : List Nat) (l : Nat) (ms : List Message) :
    noProcBeforeInitOk (analyzeAction ic pr b l ms none).trace = true := by
  cases hi : ic with
  | error e => simp [analyzeAction, hi, noProcBeforeInitOk]
  | ok c => cases hp : pr c b ms <;> simp [analyzeAction, hi, hp, noProcBeforeInitOk]

theorem analyzeAction_procStart_mem {Chat : Type} (ic : Except Err Chat)
    (pr : Chat → List Nat → List Message → Except Err (List Message))
    (b : List Nat) (l : Nat) (ms : List Message) (ch : Option Chat)
    (arg : Option Chat) (bs : List Nat)
    (h : Ev.procStart arg bs ∈ (analyzeAction ic pr b l ms ch).trace) :
    bs = b ∧ ∃ c, arg = some c ∧ (analyzeAction ic pr b l ms ch).chat = some c := by
  cases ch with
  | some c =>
    cases hp : pr c b ms <;> simp [analyzeAction, hp] at h <;>
      exact ⟨h.2, c, h.1, by simp [analyzeAction, hp]⟩
  | none =>
    cases hi : ic with
    | error e => simp [analyzeAction, hi] at h
    | ok c =>
      cases hp : pr c b ms <;> simp [analyzeAction, hi, hp] at h <;>
        exact ⟨h.2, c, h.1, by simp [analyzeAction, hi, hp]⟩

theorem analyzeAction_init_error_no_proc {Chat : Type} (ic : Except Err Chat)
    (pr : Chat → List Nat → List Message → Except Err (List Message))
    (b : List Nat) (l : Nat) (ms : List Message) (e : Err)
    (hi : ic = Except.error e) (arg : Option Chat) (bs : List Nat) :
    Ev.procStart arg bs ∉ (analyzeAction ic pr b l ms none).trace := by
  simp [analyzeAction, hi]

theorem analyzeAction_chat_some {Chat : Type} (ic : Except Err Chat)
    (pr : Chat → List Nat → List Message → Except Err (List Message))
    (b : List Nat) (l : Nat) (ms : List Message) (c : Chat) :
    (analyzeAction ic pr b l ms (some c)).chat = some c := by
  cases hp : pr c b ms <;> simp [analyzeAction, hp]

theorem analyzeAction_chat_init_ok {Chat : Type} (ic : Except Err Chat)
    (pr : Chat → List Nat → List Message → Except Err (List Message))
    (b : List Nat) (l : Nat) (ms : List Message) (c : Chat)
    (hi : ic = Except.ok c) :
    (analyzeAction ic pr b l ms none).chat = some c := by
  cases hp : pr c b ms <;> simp [analyzeAction, hi, hp]

theorem analyzeAction_init_error {Chat : Type} (ic : Except Err Chat)
    (pr : Chat → List Nat → List Message → Except Err (List Message))
    (b : List Nat) (l : Nat) (ms : List Message) (e : Err)
    (hi : ic = Except.error e) :
    (analyzeAction ic pr b l ms none).chat = none
    ∧ (analyzeAction ic pr b l ms none).messages = ms
    ∧ (analyzeAction ic pr b l ms none).result = Except.error e := by
  simp [analyzeAction, hi]

theorem analyzeAction_proc_error_messages {Chat : Type} (ic : Except Err Chat)
    (pr : Chat → List Nat → List Message → Except Err (List Message))
    (b : List Nat) (l : Nat) (ms : List Message) (ch : Option Chat) (e : Err)
    (hp : ∀ c, pr c b ms = Except.error e) :
    (∃ c, ch = some c) ∨ (∃ c, ic = Except.ok c) →
    (analyzeAction ic pr b l ms ch).messages = ms
    ∧ (analyzeAction ic pr b l ms ch).result = Except.error e := by
  intro hcase
  cases ch with
  | some c => simp [analyzeAction, hp c]
  | none =>
    rcases hcase with ⟨c, hc⟩ | ⟨c, hc⟩
    · exact absurd hc (by simp)
    · simp [analyzeAction, hc, hp c]

theorem analyzeAction_result_error {Chat : Type} (ic : Except Err Chat)
    (pr : Chat → List Nat → List Message → Except Err (List Message))
    (b : List Nat) (l : Nat) (ms : List Message) (ch : Option Chat) (e : Err) :
    ((ch = none ∧ ic = Except.error e)
      ∨ (∃ c, ch = some c ∧ pr c b ms = Except.error e)
      ∨ (∃ c, ch = none ∧ ic = Except.ok c ∧ pr c b ms = Except.error e)) →
    (analyzeAction ic pr b l ms ch).result = Except.error e := by
  rintro (⟨hch, hi⟩ | ⟨c, hch, hp⟩ | ⟨c, hch, hi, hp⟩)
  · subst hch; simp [analyzeAction, hi]
  · subst hch; simp [analyzeAction, hp]
  · subst hch; simp [analyzeAction, hi, hp]

theorem finishCycle_reset_true {Chat : Type} (disp : List DisplayItem)
    (ms : List Message) (ch : Option Chat) (tr : List (Ev Chat)) (nid : Nat) :
    finishCycle disp ms ch tr nid true
      = ⟨disp, ⟨none, none⟩, tr, Except.ok (), true, nid⟩ := by
  simp [finishCycle]

theorem finishCycle_reset_false {Chat : Type} (disp : List DisplayItem)
    (ms : List Message) (ch : Option Chat) (tr : List (Ev Chat)) (nid : Nat) :
    finishCycle disp ms ch tr nid false
      = ⟨disp, ⟨some ms, some ch⟩, tr, Except.ok (), false, nid⟩ := by
  simp [finishCycle]

theorem mainCycle_no_upload {Chat : Type} (ic : Except Err Chat)
    (pr : Chat → List Nat → List Message → Except Err (List Message))
    (l : Nat) (inp : RenderInput) (st0 : SessionDict Chat)
    (hu : file_uploader uploadTypes inp.candidate = none) :
    mainCycle ic pr l inp st0 = finishCycle
      (renderTranscript ((initSessionState st0).messages.getD []))
      ((initSessionState st0).messages.getD [])
      ((initSessionState st0).chat.getD none) [] l inp.resetClicked := by
  simp [mainCycle, hu]

theorem mainCycle_upload_noclick {Chat : Type} (ic : Except Err Chat)
    (pr : Chat → List Nat → List Message → Except Err (List Message))
    (l : Nat) (inp : RenderInput) (st0 : SessionDict Chat) (f : UploadFile)
    (hu : file_uploader uploadTypes inp.candidate = some f)
    (hc : inp.analyzeClicked = false) :
    mainCycle ic pr l inp st0 = finishCycle
      (renderTranscript ((initSessionState st0).messages.getD [])
        ++ [DisplayItem.uploadedPreview f.name])
      ((initSessionState st0).messages.getD [])
      ((initSessionState st0).chat.getD none) [] l inp.resetClicked := by
  simp [mainCycle, hu, hc]

theorem mainCycle_analyze_ok {Chat : Type} (ic : Except Err Chat)
    (pr : Chat → List Nat → List Message → Except Err (List Message))
    (l : Nat) (inp : RenderInput) (st0 : SessionDict Chat) (f : UploadFile)
    (hu : file_uploader uploadTypes inp.candidate = some f)
    (hc : inp.analyzeClicked = true)
    (hr : (analyzeAction ic pr f.bytes l ((initSessionState st0).messages.getD [])
        ((initSessionState st0).chat.getD none)).result = Except.ok ()) :
    mainCycle ic pr l inp st0 = finishCycle
      (renderTranscript ((initSessionState st0).messages.getD [])
        ++ [DisplayItem.uploadedPreview f.name])
      (analyzeAction ic pr f.bytes l ((initSessionState st0).messages.getD [])
        ((initSessionState st0).chat.getD none)).messages
      (analyzeAction ic pr f.bytes l ((initSessionState st0).messages.getD [])
        ((initSessionState st0).chat.getD none)).chat
      (analyzeAction ic pr f.bytes l ((initSessionState st0).messages.getD [])
        ((initSessionState st0).chat.getD none)).trace
      (l + 1) inp.resetClicked := by
  simp [mainCycle, hu, hc, hr]

theorem mainCycle_analyze_error {Chat : Type} (ic : Except Err Chat)
    (pr : Chat → List Nat → List Message → Except Err (List Message))
    (l : Nat) (inp : RenderInput) (st0 : SessionDict Chat) (f : UploadFile)
    (e : Err)
    (hu : file_uploader uploadTypes inp.candidate = some f)
    (hc : inp.analyzeClicked = true)
    (hr : (analyzeAction ic pr f.bytes l ((initSessionState st0).messages.getD [])
        ((initSessionState st0).chat.getD none)).result = Except.error e) :
    mainCycle ic pr l inp st0 =
      ⟨renderTranscript ((initSessionState st0).messages.getD [])
         ++ [DisplayItem.uploadedPreview f.name],
       ⟨some (analyzeAction ic pr f.bytes l
           ((initSessionState st0).messages.getD [])
           ((initSessionState st0).chat.getD none)).messages,
        some (analyzeAction ic pr f.bytes l
           ((initSessionState st0).messages.getD [])
           ((initSessionState st0).chat.getD none)).chat⟩,
       (analyzeAction ic pr f.bytes l ((initSessionState st0).messages.getD [])
         ((initSessionState st0).chat.getD none)).trace,
       Except.error e, false, l + 1⟩ := by
  simp [mainCycle, hu, hc, hr]

/-- C1: the chat handle is initialized at most once per session.  In any
analyze action, `initialize_chat` is invoked exactly once when the stored
`"chat"` value is `None` and zero times otherwise; a successful result is
stored in `"chat"`; and once a handle is stored, any later analyze action
keeps that same handle stored, invokes `initialize_chat` zero times, and
passes exactly the stored handle to `process_image_and_get_responses`. -/
theorem chat_initialized_at_most_once {Chat : Type} (ic : Except Err Chat)
    (pr : Chat → List Nat → List Message → Except Err (List Message))
    (b : List Nat) (l : Nat) (ms : List Message) (ch : Option Chat) :
    countInitCalls (analyzeAction ic pr b l ms ch).trace
        = (if ch.isSome then 0 else 1)
    ∧ (∀ c, ch = none → ic = Except.ok c →
        (analyzeAction ic pr b l ms ch).chat = some c)
    ∧ (∀ c, ch = some c →
        (analyzeAction ic pr b l ms ch).chat = some c
        ∧ countInitCalls (analyzeAction ic pr b l ms ch).trace = 0
        ∧ (∀ arg bs, Ev.procStart arg bs ∈ (analyzeAction ic pr b l ms ch).trace →
            arg = some c)) := by
  refine ⟨analyzeAction_countInit ic pr b l ms ch, ?_, ?_⟩
  · intro c hch hic; subst hch
    exact analyzeAction_chat_init_ok ic pr b l ms c hic
  · intro c hch; subst hch
    refine ⟨analyzeAction_chat_some ic pr b l ms c, ?_, ?_⟩
    · rw [analyzeAction_countInit]; rfl
    · intro arg bs h
      obtain ⟨hb, c2, harg, hc2⟩ :=
        analyzeAction_procStart_mem ic pr b l ms (some c) arg bs h
      rw [analyzeAction_chat_some ic pr b l ms c] at hc2
      injection hc2 with hcc
      subst hcc
      exact harg

/-- Witness for C1: with `Chat := Nat`, a fresh session (`"chat"` holding
`None`) invokes `initialize_chat` once and stores the handle `7`. -/
theorem chat_initialized_at_most_once_witness :
    countInitCalls (analyzeAction sampleInit sampleProc [1, 2] 0 []
        (none : Option Nat)).trace = (if (none : Option Nat).isSome then 0 else 1)
    ∧ (analyzeAction sampleInit sampleProc [1, 2] 0 []
        (none : Option Nat)).chat = some 7 :=
  ⟨(chat_initialized_at_most_once sampleInit sampleProc [1, 2] 0 [] none).1,
   (chat_initialized_at_most_once sampleInit sampleProc [1, 2] 0 [] none).2.1 7
     rfl rfl⟩

/-- C10: when `initialize_chat` raises during an analyze action, the
assignment on line 48 never executes, so `"chat"` is left holding `None`,
the transcript is unchanged, the error propagates — and the next analyze
action attempts initialization again (exactly one further
`initialize_chat` invocation). -/
theorem init_failure_leaves_chat_unset {Chat : Type} (ic : Except Err Chat)
    (pr : Chat → List Nat → List Message → Except Err (List Message))
    (b : List Nat) (l : Nat) (ms : List Message) (e : Err)
    (hi : ic = Except.error e) :
    (analyzeAction ic pr b l ms none).chat = none
    ∧ (analyzeAction ic pr b l ms none).messages = ms
    ∧ (analyzeAction ic pr b l ms none).result = Except.error e
    ∧ (∀ (ic2 : Except Err Chat)
        (pr2 : Chat → List Nat → List Message → Except Err (List Message))
        (b2 : List Nat) (l2 : Nat),
        countInitCalls (analyzeAction ic2 pr2 b2 l2
          (analyzeAction ic pr b l ms none).messages
          (analyzeAction ic pr b l ms none).chat).trace = 1) := by
  obtain ⟨h1, h2, h3⟩ := analyzeAction_init_error ic pr b l ms e hi
  refine ⟨h1, h2, h3, ?_⟩
  intro ic2 pr2 b2 l2
  rw [h1, analyzeAction_countInit]
  rfl

/-- Witness for C10: with `Chat := Nat` and a failing `initialize_chat`,
the session keeps `"chat" = None` and an unchanged transcript, and a retry
invokes `initialize_chat` once more. -/
theorem init_failure_leaves_chat_unset_witness :
    (analyzeAction sampleInitFail sampleProc [9] 3 [] (none : Option Nat)).chat
        = none
    ∧ (analyzeAction sampleInitFail sampleProc [9] 3 []
        (none : Option Nat)).messages = []
    ∧ (analyzeAction sampleInitFail sampleProc [9] 3 []
        (none : Option Nat)).result = Except.error "init failed"
    ∧ countInitCalls (analyzeAction sampleInit sampleProc [9] 4
        (analyzeAction sampleInitFail sampleProc [9] 3 []
          (none : Option Nat)).messages
        (analyzeAction sampleInitFail sampleProc [9] 3 []
          (none : Option Nat)).chat).trace = 1 := by
  obtain ⟨h1, h2, h3, h4⟩ :=
    init_failure_leaves_chat_unset sampleInitFail sampleProc [9] 3 []
      "init failed" rfl
  exact ⟨h1, h2, h3, h4 sampleInit sampleProc [9] 4⟩

/-- C2: processing a "Start Over" click — reached whenever no analyze error
aborted the script first, which is what `hok` states — clears every
session-state key unconditionally and requests a full rerun; the key
re-initialization on the next render then yields the empty message list and
a `None` chat handle. -/
theorem reset_clears_session {Chat : Type} (ic : Except Err Chat)
    (pr : Chat → List Nat → List Message → Except Err (List Message))
    (l : Nat) (inp : RenderInput) (st0 : SessionDict Chat)
    (hreset : inp.resetClicked = true)
    (hok : (mainCycle ic pr l inp st0).result = Except.ok ()) :
    (mainCycle ic pr l inp st0).state = ⟨none, none⟩
    ∧ (mainCycle ic pr l inp st0).rerunRequested = true
    ∧ initSessionState (mainCycle ic pr l inp st0).state
        = ⟨some [], some none⟩ := by
  cases hu : file_uploader uploadTypes inp.candidate with
  | none =>
    rw [mainCycle_no_upload ic pr l inp st0 hu, hreset, finishCycle_reset_true]
    exact ⟨rfl, rfl, rfl⟩
  | some f =>
    cases hc : inp.analyzeClicked with
    | false =>
      rw [mainCycle_upload_noclick ic pr l inp st0 f hu hc, hreset,
        finishCycle_reset_true]
      exact ⟨rfl, rfl, rfl⟩
    | true =>
      cases hr : (analyzeAction ic pr f.bytes l
          ((initSessionState st0).messages.getD [])
          ((initSessionState st0).chat.getD none)).result with
      | error e =>
        rw [mainCycle_analyze_error ic pr l inp st0 f e hu hc hr] at hok
        exact absurd hok (by simp)
      | ok u =>
        rw [mainCycle_analyze_ok ic pr l inp st0 f hu hc (by rw [hr]), hreset,
          finishCycle_reset_true]
        exact ⟨rfl, rfl, rfl⟩

/-- Witness for C2: with `Chat := Nat`, a session holding two messages and
a set chat handle is fully cleared by the reset click and re-initializes to
the empty transcript and `None` handle. -/
theorem reset_clears_session_witness :
    (mainCycle sampleInit sampleProc 0 ⟨none, false, true⟩
        (⟨some [⟨"user", "hi", none⟩, ⟨"assistant", "hello", none⟩],
          some (some 5)⟩ : SessionDict Nat)).state = ⟨none, none⟩
    ∧ (mainCycle sampleInit sampleProc 0 ⟨none, false, true⟩
        (⟨some [⟨"user", "hi", none⟩, ⟨"assistant", "hello", none⟩],
          some (some 5)⟩ : SessionDict Nat)).rerunRequested = true
    ∧ initSessionState (mainCycle sampleInit sampleProc 0 ⟨none, false, true⟩
        (⟨some [⟨"user", "hi", none⟩, ⟨"assistant", "hello", none⟩],
          some (some 5)⟩ : SessionDict Nat)).state = ⟨some [], some none⟩ :=
  reset_clears_session sampleInit sampleProc 0 ⟨none, false, true⟩
    ⟨some [⟨"user", "hi", none⟩, ⟨"assistant", "hello", none⟩], some (some 5)⟩
    rfl rfl

/-- C3: in an analyze action that needs initialization (the stored chat is
`None`), `process_image_and_get_responses` never starts before
`initialize_chat` has completed successfully; when `initialize_chat` fails,
`process_image_and_get_responses` is never invoked at all; every
collaborator start and completion event lies strictly before the spinner
teardown, which is the final event of the action; and every
`process_image_and_get_responses` invocation carries a non-`None` chat
argument. -/
theorem init_completes_before_process {Chat : Type} (ic : Except Err Chat)
    (pr : Chat → List Nat → List Message → Except Err (List Message))
    (b : List Nat) (l : Nat) (ms : List Message) (ch : Option Chat)
    (hch : ch = none) :
    noProcBeforeInitOk (analyzeAction ic pr b l ms ch).trace = true
    ∧ (∀ e, ic = Except.error e → ∀ arg bs,
        Ev.procStart arg bs ∉ (analyzeAction ic pr b l ms ch).trace)
    ∧ (analyzeAction ic pr b l ms ch).trace.getLast? = some Ev.spinnerExit
    ∧ afterSpinnerExit (analyzeAction ic pr b l ms ch).trace = []
    ∧ procArgsSome (analyzeAction ic pr b l ms ch).trace = true := by
  subst hch
  refine ⟨analyzeAction_noProcBeforeInitOk ic pr b l ms, ?_,
    (analyzeAction_spinner ic pr b l ms none).1,
    (analyzeAction_spinner ic pr b l ms none).2.2,
    analyzeAction_procArgsSome ic pr b l ms none⟩
  intro e hi arg bs
  exact analyzeAction_init_error_no_proc ic pr b l ms e hi arg bs

/-- Witness for C3: with `Chat := Nat` and a failing `initialize_chat`, no
`process_image_and_get_responses` start occurs, the ordering checks hold,
and the spinner teardown is the final event. -/
theorem init_completes_before_process_witness :
    noProcBeforeInitOk (analyzeAction sampleInitFail sampleProc [1] 0 []
        (none : Option Nat)).trace = true
    ∧ Ev.procStart (some 7) [1] ∉ (analyzeAction sampleInitFail sampleProc [1] 0
        [] (none : Option Nat)).trace
    ∧ (analyzeAction sampleInitFail sampleProc [1] 0 []
        (none : Option Nat)).trace.getLast? = some Ev.spinnerExit
    ∧ afterSpinnerExit (analyzeAction sampleInitFail sampleProc [1] 0 []
        (none : Option Nat)).trace = []
    ∧ procArgsSome (analyzeAction sampleInitFail sampleProc [1] 0 []
        (none : Option Nat)).trace = true := by
  obtain ⟨h1, h2, h3, h4, h5⟩ :=
    init_completes_before_process sampleInitFail sampleProc [1] 0 [] none rfl
  exact ⟨h1, h2 "init failed" rfl (some 7) [1], h3, h4, h5⟩

theorem mainCycle_loopCreates_mem {Chat : Type} (ic : Except Err Chat)
    (pr : Chat → List Nat → List Message → Except Err (List Message))
    (l : Nat) (inp : RenderInput) (st0 : SessionDict Chat) (i : Nat)
    (h : i ∈ loopCreates (mainCycle ic pr l inp st0).trace) :
    i = l ∧ (mainCycle ic pr l inp st0).nextLoopId = l + 1 := by
  cases hu : file_uploader uploadTypes inp.candidate with
  | none =>
    rw [mainCycle_no_upload ic pr l inp st0 hu, finishCycle_trace] at h
    simp [loopCreates] at h
  | some f =>
    cases hc : inp.analyzeClicked with
    | false =>
      rw [mainCycle_upload_noclick ic pr l inp st0 f hu hc, finishCycle_trace] at h
      simp [loopCreates] at h
    | true =>
      cases hr : (analyzeAction ic pr f.bytes l
          ((initSessionState st0).messages.getD [])
          ((initSessionState st0).chat.getD none)).result with
      | ok u =>
        rw [mainCycle_analyze_ok ic pr l inp st0 f hu hc (by rw [hr])] at h ⊢
        rw [finishCycle_trace, analyzeAction_loopCreates] at h
        simp at h
        exact ⟨h, finishCycle_nextLoopId _ _ _ _ _ _⟩
      | error e =>
        rw [mainCycle_analyze_error ic pr l inp st0 f e hu hc hr] at h ⊢
        rw [analyzeAction_loopCreates] at h
        simp at h
        exact ⟨h, rfl⟩

/-- C4: each analyze action creates exactly one event loop — the one named
by the fresh counter value handed to it — and closes exactly that loop on
every exit path (collaborator success, `initialize_chat` failure, and
`process_image_and_get_responses` failure alike); and across two successive
render cycles, where the second starts from the first's advanced counter
and resulting state, no loop id created by the first cycle is ever created
again by the second, so no loop is reused across actions. -/
theorem fresh_loop_per_action {Chat : Type} (ic : Except Err Chat)
    (pr : Chat → List Nat → List Message → Except Err (List Message))
    (b : List Nat) (l : Nat) (ms : List Message) (ch : Option Chat) :
    loopCreates (analyzeAction ic pr b l ms ch).trace = [l]
    ∧ loopCloses (analyzeAction ic pr b l ms ch).trace = [l]
    ∧ (∀ (ic1 ic2 : Except Err Chat)
        (pr1 pr2 : Chat → List Nat → List Message → Except Err (List Message))
        (l0 : Nat) (inp1 inp2 : RenderInput) (st0 : SessionDict Chat) (i : Nat),
        i ∈ loopCreates (mainCycle ic1 pr1 l0 inp1 st0).trace →
        i ∉ loopCreates (mainCycle ic2 pr2
          (mainCycle ic1 pr1 l0 inp1 st0).nextLoopId inp2
          (mainCycle ic1 pr1 l0 inp1 st0).state).trace) := by
  refine ⟨analyzeAction_loopCreates ic pr b l ms ch,
    analyzeAction_loopCloses ic pr b l ms ch, ?_⟩
  intro ic1 ic2 pr1 pr2 l0 inp1 inp2 st0 i h1 h2
  obtain ⟨hi, hnext⟩ := mainCycle_loopCreates_mem ic1 pr1 l0 inp1 st0 i h1
  obtain ⟨hi2, _⟩ := mainCycle_loopCreates_mem ic2 pr2 _ inp2 _ i h2
  rw [hnext] at hi2
  omega

/-- Witness for C4: with `Chat := Nat`, the analyze action of a first cycle
uses loop id 0, and the following cycle — begun at the advanced counter —
never creates loop 0 again. -/
theorem fresh_loop_per_action_witness :
    loopCreates (analyzeAction sampleInit sampleProc [1] 0 []
        (none : Option Nat)).trace = [0]
    ∧ loopCloses (analyzeAction sampleInit sampleProc [1] 0 []
        (none : Option Nat)).trace = [0]
    ∧ (0 : Nat) ∉ loopCreates (mainCycle sampleInit sampleProc
        (mainCycle sampleInit sampleProc 0 ⟨some samplePng, true, false⟩
          (⟨none, none⟩ : SessionDict Nat)).nextLoopId
        ⟨some samplePng, true, false⟩
        (mainCycle sampleInit sampleProc 0 ⟨some samplePng, true, false⟩
          (⟨none, none⟩ : SessionDict Nat)).state).trace := by
  obtain ⟨h1, h2, h3⟩ :=
    fresh_loop_per_action sampleInit sampleProc [1] 0 [] (none : Option Nat)
  refine ⟨h1, h2, h3 sampleInit sampleInit sampleProc sampleProc 0
    ⟨some samplePng, true, false⟩ ⟨some samplePng, true, false⟩
    ⟨none, none⟩ 0 ?_⟩
  decide

/-- C5: when `process_image_and_get_responses` raises during an analyze
action (here: it raises for whichever handle it is given, in a session that
either already holds a handle or whose initialization succeeds), the
spinner's scoped teardown still runs and is the action's final event — the
processing indicator is no longer shown once the action completes — no new
message is appended to `"messages"`, and the error propagates. -/
theorem proc_error_spinner_cleared_no_message {Chat : Type}
    (ic : Except Err Chat)
    (pr : Chat → List Nat → List Message → Except Err (List Message))
    (b : List Nat) (l : Nat) (ms : List Message) (ch : Option Chat) (e : Err)
    (hsome : (∃ c, ch = some c) ∨ (∃ c, ic = Except.ok c))
    (hp : ∀ c, pr c b ms = Except.error e) :
    (analyzeAction ic pr b l ms ch).messages = ms
    ∧ (analyzeAction ic pr b l ms ch).trace.getLast? = some Ev.spinnerExit
    ∧ afterSpinnerExit (analyzeAction ic pr b l ms ch).trace = []
    ∧ (analyzeAction ic pr b l ms ch).result = Except.error e := by
  obtain ⟨h1, h2⟩ := analyzeAction_proc_error_messages ic pr b l ms ch e hp hsome
  exact ⟨h1, (analyzeAction_spinner ic pr b l ms ch).1,
    (analyzeAction_spinner ic pr b l ms ch).2.2, h2⟩

/-- Witness for C5: with `Chat := Nat`, a session holding handle 5 and one
prior message keeps exactly that message when
`process_image_and_get_responses` fails, and the trace ends with the
spinner teardown. -/
theorem proc_error_spinner_cleared_no_message_witness :
    (analyzeAction sampleInit sampleProcFail [1] 0 [⟨"user", "hi", none⟩]
        (some 5)).messages = [⟨"user", "hi", none⟩]
    ∧ (analyzeAction sampleInit sampleProcFail [1] 0 [⟨"user", "hi", none⟩]
        (some 5)).trace.getLast? = some Ev.spinnerExit
    ∧ afterSpinnerExit (analyzeAction sampleInit sampleProcFail [1] 0
        [⟨"user", "hi", none⟩] (some 5)).trace = []
    ∧ (analyzeAction sampleInit sampleProcFail [1] 0 [⟨"user", "hi", none⟩]
        (some 5)).result = Except.error "proc failed" :=
  proc_error_spinner_cleared_no_message sampleInit sampleProcFail [1] 0
    [⟨"user", "hi", none⟩] (some 5) "proc failed" (Or.inl ⟨5, rfl⟩)
    (fun _ => rfl)

/-- C6: no failure of either collaborator call during the analyze action is
caught or translated by this layer — whichever of `initialize_chat` (when
initialization is needed) or `process_image_and_get_responses` fails, the
very same error becomes the uncaught result of the whole render cycle. -/
theorem errors_propagate_uncaught {Chat : Type} (ic : Except Err Chat)
    (pr : Chat → List Nat → List Message → Except Err (List Message))
    (l : Nat) (inp : RenderInput) (st0 : SessionDict Chat) (f : UploadFile)
    (hu : file_uploader uploadTypes inp.candidate = some f)
    (hc : inp.analyzeClicked = true) :
    (∀ e, (initSessionState st0).chat.getD none = none →
        ic = Except.error e →
        (mainCycle ic pr l inp st0).result = Except.error e)
    ∧ (∀ c e, (initSessionState st0).chat.getD none = some c →
        pr c f.bytes ((initSessionState st0).messages.getD [])
          = Except.error e →
        (mainCycle ic pr l inp st0).result = Except.error e)
    ∧ (∀ c e, (initSessionState st0).chat.getD none = none →
        ic = Except.ok c →
        pr c f.bytes ((initSessionState st0).messages.getD [])
          = Except.error e →
        (mainCycle ic pr l inp st0).result = Except.error e) := by
  refine ⟨?_, ?_, ?_⟩
  · intro e hch hi
    have hr := analyzeAction_result_error ic pr f.bytes l
      ((initSessionState st0).messages.getD [])
      ((initSessionState st0).chat.getD none) e (Or.inl ⟨hch, hi⟩)
    rw [mainCycle_analyze_error ic pr l inp st0 f e hu hc hr]
  · intro c e hch hp
    have hr := analyzeAction_result_error ic pr f.bytes l
      ((initSessionState st0).messages.getD [])
      ((initSessionState st0).chat.getD none) e (Or.inr (Or.inl ⟨c, hch, hp⟩))
    rw [mainCycle_analyze_error ic pr l inp st0 f e hu hc hr]
  · intro c e hch hi hp
    have hr := analyzeAction_result_error ic pr f.bytes l
      ((initSessionState st0).messages.getD [])
      ((initSessionState st0).chat.getD none) e
      (Or.inr (Or.inr ⟨c, hch, hi, hp⟩))
    rw [mainCycle_analyze_error ic pr l inp st0 f e hu hc hr]

/-- Witness for C6: with `Chat := Nat`, a failing `initialize_chat` on a
fresh session surfaces its own error as the render cycle's uncaught
result. -/
theorem errors_propagate_uncaught_witness :
    (mainCycle sampleInitFail sampleProc 0 ⟨some samplePng, true, false⟩
        (⟨none, none⟩ : SessionDict Nat)).result
      = Except.error "init failed" :=
  (errors_propagate_uncaught sampleInitFail sampleProc 0
      ⟨some samplePng, true, false⟩ ⟨none, none⟩ samplePng (by decide) rfl).1
    "init failed" rfl rfl

/-- C7: the analyze pipeline sits behind the upload check (line 32) and the
button (line 37): when the upload widget yields no file the render cycle
performs no analyze event at all, and any
`process_image_and_get_responses` invocation that does happen belongs to a
cycle whose widget returned a file and whose analyze button was clicked,
and carries exactly that file's bytes together with a non-`None` chat
handle. -/
theorem analyze_requires_uploaded_image {Chat : Type} (ic : Except Err Chat)
    (pr : Chat → List Nat → List Message → Except Err (List Message))
    (l : Nat) (inp : RenderInput) (st0 : SessionDict Chat) :
    (file_uploader uploadTypes inp.candidate = none →
      (mainCycle ic pr l inp st0).trace = [])
    ∧ (∀ arg bs, Ev.procStart arg bs ∈ (mainCycle ic pr l inp st0).trace →
        ∃ f, file_uploader uploadTypes inp.candidate = some f ∧ bs = f.bytes
          ∧ inp.analyzeClicked = true ∧ arg.isSome = true) := by
  constructor
  · intro hu
    rw [mainCycle_no_upload ic pr l inp st0 hu, finishCycle_trace]
  · intro arg bs h
    cases hu : file_uploader uploadTypes inp.candidate with
    | none =>
      rw [mainCycle_no_upload ic pr l inp st0 hu, finishCycle_trace] at h
      simp at h
    | some f =>
      cases hc : inp.analyzeClicked with
      | false =>
        rw [mainCycle_upload_noclick ic pr l inp st0 f hu hc,
          finishCycle_trace] at h
        simp at h
      | true =>
        have hmem : Ev.procStart arg bs ∈ (analyzeAction ic pr f.bytes l
            ((initSessionState st0).messages.getD [])
            ((initSessionState st0).chat.getD none)).trace := by
          cases hr : (analyzeAction ic pr f.bytes l
              ((initSessionState st0).messages.getD [])
              ((initSessionState st0).chat.getD none)).result with
          | ok u =>
            rw [mainCycle_analyze_ok ic pr l inp st0 f hu hc (by rw [hr]),
              finishCycle_trace] at h
            exact h
          | error e =>
            rw [mainCycle_analyze_error ic pr l inp st0 f e hu hc hr] at h
            exact h
        obtain ⟨hb, c, harg, _⟩ := analyzeAction_procStart_mem ic pr f.bytes l
          ((initSessionState st0).messages.getD [])
          ((initSessionState st0).chat.getD none) arg bs hmem
        exact ⟨f, rfl, hb, rfl, by rw [harg]; rfl⟩

/-- Witness for C7: with `Chat := Nat` and an empty upload widget, a cycle
with the analyze button pressed still produces no analyze event. -/
theorem analyze_requires_uploaded_image_witness :
    (mainCycle sampleInit sampleProc 0 ⟨none, true, false⟩
        (⟨none, none⟩ : SessionDict Nat)).trace = [] :=
  (analyze_requires_uploaded_image sampleInit sampleProc 0 ⟨none, true, false⟩
    ⟨none, none⟩).1 rfl

theorem mainCycle_displayed_upload {Chat : Type} (ic : Except Err Chat)
    (pr : Chat → List Nat → List Message → Except Err (List Message))
    (l : Nat) (inp : RenderInput) (st0 : SessionDict Chat) (f : UploadFile)
    (hu : file_uploader uploadTypes inp.candidate = some f) :
    (mainCycle ic pr l inp st0).displayed
      = renderTranscript ((initSessionState st0).messages.getD [])
          ++ [DisplayItem.uploadedPreview f.name] := by
  cases hc : inp.analyzeClicked with
  | false =>
    rw [mainCycle_upload_noclick ic pr l inp st0 f hu hc, finishCycle_displayed]
  | true =>
    cases hr : (analyzeAction ic pr f.bytes l
        ((initSessionState st0).messages.getD [])
        ((initSessionState st0).chat.getD none)).result with
    | ok u =>
      rw [mainCycle_analyze_ok ic pr l inp st0 f hu hc (by rw [hr]),
        finishCycle_displayed]
    | error e =>
      rw [mainCycle_analyze_error ic pr l inp st0 f e hu hc hr]

/-- C8: the upload control accepts at most one file per render cycle and
only the extensions jpg, jpeg and png: a candidate file with any other
extension yields no file — hence no preview item and no analyze pipeline,
so no image input for the analyze action — while a yielded file is the
candidate itself, has an allowed extension, and gets its preview rendered
immediately; in every cycle at most one preview item is displayed. -/
theorem upload_extension_filter {Chat : Type} (ic : Except Err Chat)
    (pr : Chat → List Nat → List Message → Except Err (List Message))
    (l : Nat) (inp : RenderInput) (st0 : SessionDict Chat) (f : UploadFile) :
    (fileExtension f.name ∉ uploadTypes →
      file_uploader uploadTypes (some f) = none)
    ∧ (file_uploader uploadTypes inp.candidate = none →
        (mainCycle ic pr l inp st0).displayed.countP isPreview = 0
        ∧ (mainCycle ic pr l inp st0).trace = [])
    ∧ (∀ g, file_uploader uploadTypes inp.candidate = some g →
        inp.candidate = some g ∧ fileExtension g.name ∈ uploadTypes
        ∧ DisplayItem.uploadedPreview g.name
            ∈ (mainCycle ic pr l inp st0).displayed)
    ∧ (mainCycle ic pr l inp st0).displayed.countP isPreview ≤ 1 := by
  refine ⟨?_, ?_, ?_, ?_⟩
  · intro hext
    simp [file_uploader, hext]
  · intro hu
    rw [mainCycle_no_upload ic pr l inp st0 hu, finishCycle_displayed,
      finishCycle_trace]
    exact ⟨renderTranscript_no_preview _, rfl⟩
  · intro g hg
    cases hcand : inp.candidate with
    | none => rw [hcand] at hg; simp [file_uploader] at hg
    | some f0 =>
      rw [hcand] at hg
      by_cases hext : fileExtension f0.name ∈ uploadTypes
      · simp [file_uploader, hext] at hg
        subst hg
        refine ⟨rfl, hext, ?_⟩
        rw [mainCycle_displayed_upload ic pr l inp st0 f0 (by
          rw [hcand]; simp [file_uploader, hext])]
        simp
      · simp [file_uploader, hext] at hg
  · cases hu : file_uploader uploadTypes inp.candidate with
    | none =>
      rw [mainCycle_no_upload ic pr l inp st0 hu, finishCycle_displayed]
      rw [renderTranscript_no_preview]
      exact Nat.zero_le 1
    | some g =>
      rw [mainCycle_displayed_upload ic pr l inp st0 g hu]
      rw [List.countP_append, renderTranscript_no_preview]
      simp [isPreview, List.countP_cons]

/-- Witness for C8: the gif candidate is rejected — no preview, no analyze
events — while the png candidate is accepted and previewed. -/
theorem upload_extension_filter_witness :
    file_uploader uploadTypes (some sampleGif) = none
    ∧ (mainCycle sampleInit sampleProc 0 ⟨some sampleGif, true, false⟩
        (⟨none, none⟩ : SessionDict Nat)).displayed.countP isPreview = 0
    ∧ (mainCycle sampleInit sampleProc 0 ⟨some sampleGif, true, false⟩
        (⟨none, none⟩ : SessionDict Nat)).trace = []
    ∧ DisplayItem.uploadedPreview "photo.png"
        ∈ (mainCycle sampleInit sampleProc 0 ⟨some samplePng, true, false⟩
            (⟨none, none⟩ : SessionDict Nat)).displayed := by
  have h1 := (upload_extension_filter sampleInit sampleProc 0
    ⟨some sampleGif, true, false⟩ (⟨none, none⟩ : SessionDict Nat)
    sampleGif).1 (by decide)
  have h2 := (upload_extension_filter sampleInit sampleProc 0
    ⟨some sampleGif, true, false⟩ (⟨none, none⟩ : SessionDict Nat)
    sampleGif).2.1 h1
  have h3 := ((upload_extension_filter sampleInit sampleProc 0
    ⟨some samplePng, true, false⟩ (⟨none, none⟩ : SessionDict Nat)
    samplePng).2.2.1 samplePng (by decide)).2.2
  exact ⟨h1, h2.1, h2.2, h3⟩

/-- C9 counterexample: for the message `{"role": "assistant", "content":
"look", "image_path": ""}` the `image_path` key is present, yet line 26
also requires the value to be truthy, so the transcript render shows no
image item for it — only the role-tagged content.  The claim's "if an
image_path is present — the associated image [is displayed]" is false at
this input. -/
theorem transcript_image_presence_counterexample :
    (Message.mk "assistant" "look" (some "")).image_path.isSome = true
    ∧ renderTranscript [Message.mk "assistant" "look" (some "")]
        = [DisplayItem.chatText "assistant" "look"] :=
  ⟨rfl, rfl⟩

/-- C9 (amended): the transcript render displays, for each message of
`st.session_state["messages"]` in insertion order, its role-tagged content
first and — if an `image_path` is present with a non-empty (truthy) value —
the associated image, with no pagination or filtering (rendering
distributes over concatenation of the message list) and no mutation of the
stored message list: a cycle without an analyze or reset action leaves
`"messages"` exactly as it was, and the page always shows the full
transcript as a prefix of its output. -/
theorem transcript_render_in_order {Chat : Type} (ic : Except Err Chat)
    (pr : Chat → List Nat → List Message → Except Err (List Message))
    (l : Nat) (inp : RenderInput) (st0 : SessionDict Chat)
    (ms ms2 : List Message) (m : Message) (p : String)
    (hna : inp.analyzeClicked = false) (hnr : inp.resetClicked = false) :
    renderTranscript (ms ++ ms2) = renderTranscript ms ++ renderTranscript ms2
    ∧ (renderMessage m).head? = some (DisplayItem.chatText m.role m.content)
    ∧ (DisplayItem.chatImage m.role p ∈ renderMessage m ↔
        m.image_path = some p ∧ p ≠ "")
    ∧ (mainCycle ic pr l inp st0).state.messages
        = some ((initSessionState st0).messages.getD [])
    ∧ (∃ rest, (mainCycle ic pr l inp st0).displayed
        = renderTranscript ((initSessionState st0).messages.getD []) ++ rest) := by
  refine ⟨renderTranscript_append ms ms2, rfl, ?_, ?_, ?_⟩
  · cases him : m.image_path with
    | none => simp [renderMessage, him]
    | some q =>
      by_cases hq : q = ""
      · subst hq
        simp [renderMessage, him]
        intro h
        exact h.symm
      · simp [renderMessage, him, hq]
        constructor
        · rintro rfl; exact ⟨rfl, hq⟩
        · rintro ⟨rfl, h⟩; rfl
  · cases hu : file_uploader uploadTypes inp.candidate with
    | none =>
      rw [mainCycle_no_upload ic pr l inp st0 hu, hnr, finishCycle_reset_false]
    | some f =>
      rw [mainCycle_upload_noclick ic pr l inp st0 f hu hna, hnr,
        finishCycle_reset_false]
  · cases hu : file_uploader uploadTypes inp.candidate with
    | none =>
      refine ⟨[], ?_⟩
      rw [mainCycle_no_upload ic pr l inp st0 hu, finishCycle_displayed,
        List.append_nil]
    | some f =>
      exact ⟨[DisplayItem.uploadedPreview f.name],
        mainCycle_displayed_upload ic pr l inp st0 f hu⟩

/-- Witness for C9 (amended): with `Chat := Nat`, concrete messages — one
with a non-empty `image_path` — and a cycle with no analyze or reset click,
rendering is in order, shows the image exactly under presence-and-truthiness
of `image_path`, and leaves the stored messages untouched. -/
theorem transcript_render_in_order_witness :
    renderTranscript ([⟨"user", "hi", none⟩] ++ [⟨"assistant", "see",
        some "img.png"⟩])
      = renderTranscript [⟨"user", "hi", none⟩]
        ++ renderTranscript [⟨"assistant", "see", some "img.png"⟩]
    ∧ (renderMessage ⟨"assistant", "see", some "img.png"⟩).head?
        = some (DisplayItem.chatText "assistant" "see")
    ∧ (DisplayItem.chatImage "assistant" "img.png"
        ∈ renderMessage ⟨"assistant", "see", some "img.png"⟩ ↔
        (Message.mk "assistant" "see" (some "img.png")).image_path
          = some "img.png" ∧ "img.png" ≠ "")
    ∧ (mainCycle sampleInit sampleProc 0 ⟨some samplePng, false, false⟩
        (⟨some [⟨"user", "hi", none⟩], some (some 5)⟩ : SessionDict Nat)).state.messages
        = some [⟨"user", "hi", none⟩] := by
  obtain ⟨h1, h2, h3, h4, h5⟩ := transcript_render_in_order sampleInit
    sampleProc 0 ⟨some samplePng, false, false⟩
    (⟨some [⟨"user", "hi", none⟩], some (some 5)⟩ : SessionDict Nat)
    [⟨"user", "hi", none⟩] [⟨"assistant", "see", some "img.png"⟩]
    ⟨"assistant", "see", some "img.png"⟩ "img.png" rfl rfl
  exact ⟨h1, h2, h3, h4⟩
